import Mathlib

/-!
Shallow embedding of `services/testing.py` (automated LLM-vs-LLM testing
utilities): data model, offline Response Backend, Conversation Driver
(`run_simulation`), Summative Evaluator (`evaluate_summative`) and Batch
Orchestrator (`batch_runner`), together with theorems settling the spec
claims about them.

Conventions of the embedding:
* Python `dict[str, T]` values are modelled as association lists
  `List (String × T)` in insertion order; `d[k] = v` is `dictSet`
  (update in place if the key exists, append otherwise — Python dict
  assignment semantics), `d.get(k, v)` is `dictGetD`, `d[k]` is
  `dictLookup` (with `none` standing for the `KeyError` fault).
* Fallible Python code (code that can raise) is embedded in `Option` /
  `Except`: `none` / `.error` is an uncaught exception.
* `float` temperatures are modelled as `ℚ`; the offline code path never
  computes with them, it only passes them along.
* Python `len(str)` counts code points, as does `String.length`;
  `s[:200]` is `String.take s 200` (first 200 characters).
* `int(sum(..) / len(..))` (float division then truncation toward zero)
  is `Int.tdiv` — exact for the small nonnegative values that occur here;
  a zero denominator is Python's `ZeroDivisionError`, embedded as `none`.
-/

namespace SzenarioTesting

/-- A chat message `{"role": ..., "content": ...}` as passed to the backend. -/
structure Msg where
  role : String
  content : String
deriving DecidableEq, Repr

/-- `SimulationTurn` dataclass from `services/testing.py`. -/
structure SimulationTurn where
  role : String
  content : String
deriving DecidableEq, Repr

/-- The `metadata` dict built by `run_simulation`: `{"persona": persona, "turns": turns}`. -/
structure SimMetadata where
  persona : String
  turns : Nat
deriving DecidableEq, Repr

/-- `SimulationResult` dataclass from `services/testing.py`. -/
structure SimulationResult where
  persona : String
  transcript : List SimulationTurn
  metadata : SimMetadata
deriving DecidableEq, Repr

/-- `SummativeEvaluation` dataclass from `services/testing.py`. -/
structure SummativeEvaluation where
  persona : String
  scores : List (String × Int)
  highlights : List String
  improvements : List String
  notes : String
  passed : Bool
deriving DecidableEq, Repr

/-- Python `d[k]` on an association list: `none` models a `KeyError`. -/
def dictLookup (d : List (String × Int)) (k : String) : Option Int :=
  (d.find? fun kv => kv.1 == k).map Prod.snd

/-- Python `d.get(k, v)`. -/
def dictGetD (d : List (String × Int)) (k : String) (v : Int) : Int :=
  (dictLookup d k).getD v

/-- Python `d[k] = v` on a dict: update the existing entry in place if the
key is present, otherwise append the new pair at the end. -/
def dictSet (d : List (String × Int)) (k : String) (v : Int) : List (String × Int) :=
  if d.any (fun kv => kv.1 == k) then
    d.map fun kv => if kv.1 == k then (kv.1, v) else kv
  else
    d ++ [(k, v)]

/-- Offline branch of `_llm_chat` (`services/testing.py`, lines 41–46):
`" ".join(content of messages with role == "user")`, truncated to the
first 200 characters, prefixed with the fixed marker
`"[offline-response] "`.  The temperature is accepted (as in the Python
signature) but never used on this path. -/
def llm_chat_offline (messages : List Msg) (temperature : ℚ) : String :=
  let combined := String.intercalate " " ((messages.filter fun m => m.role == "user").map Msg.content)
  "[offline-response] " ++ combined.take 200

/-- Loop body of `run_simulation` (`services/testing.py`, lines 67–73),
parametrised by the backend `llm` (the Python code reaches the backend
through `_llm_chat`, which dispatches on client availability once; the
offline instantiation is `llm_chat_offline`).  Returns the produced
transcript, the final internal history, and — for call accounting — the
list of message sequences handed to the backend, in call order. -/
def simLoop (llm : List Msg → ℚ → String) (user_prompt : Msg) (temperature : ℚ) :
    Nat → List Msg → List SimulationTurn × List Msg × List (List Msg)
  | 0, history => ([], history, [])
  | Nat.succ n, history =>
    let call₁ := history ++ [user_prompt, ⟨"user", "<simulate>"⟩]
    let learner_input := llm call₁ temperature
    let history₁ := history ++ [⟨"user", learner_input⟩]
    let interviewer_reply := llm history₁ temperature
    let history₂ := history₁ ++ [⟨"assistant", interviewer_reply⟩]
    let rest := simLoop llm user_prompt temperature n history₂
    (⟨"learner", learner_input⟩ :: ⟨"assistant", interviewer_reply⟩ :: rest.1,
     rest.2.1,
     call₁ :: history₁ :: rest.2.2)

/-- `run_simulation` (`services/testing.py`, lines 55–75), with the
`params` dict split into its two used entries (`persona`, `temperature`)
and the backend passed explicitly.  History is seeded with the system
turn carrying `main_prompt` and the fixed greeting assistant turn; the
returned transcript holds only the turns appended inside the loop. -/
def run_simulation (llm : List Msg → ℚ → String) (main_prompt test_persona_prompt : String)
    (turns : Nat) (persona : String) (temperature : ℚ) : SimulationResult :=
  let user_prompt : Msg := ⟨"system", test_persona_prompt⟩
  let history : List Msg := [⟨"system", main_prompt⟩, ⟨"assistant", "Hallo, willkommen."⟩]
  let r := simLoop llm user_prompt temperature turns history
  { persona := persona, transcript := r.1, metadata := ⟨persona, turns⟩ }

/-- The message sequences `run_simulation` hands to the backend, in call
order (instrumentation of the same loop; empty list = no backend calls). -/
def run_simulation_calls (llm : List Msg → ℚ → String) (main_prompt test_persona_prompt : String)
    (turns : Nat) (persona : String) (temperature : ℚ) : List (List Msg) :=
  let user_prompt : Msg := ⟨"system", test_persona_prompt⟩
  let history : List Msg := [⟨"system", main_prompt⟩, ⟨"assistant", "Hallo, willkommen."⟩]
  (simLoop llm user_prompt temperature turns history).2.2

/-- The role pattern the spec asserts for a transcript of `n` iterations:
a learner turn followed by its paired assistant turn, `n` times. -/
def rolePairs : Nat → List String
  | 0 => []
  | Nat.succ n => "learner" :: "assistant" :: rolePairs n

/-- The rendered transcript blob of `evaluate_summative`
(`services/testing.py`, line 79): one line per turn, `"{role}: {content}"`,
joined by newlines. -/
def renderTranscript (transcript : List SimulationTurn) : String :=
  String.intercalate "\n" (transcript.map fun turn => turn.role ++ ": " ++ turn.content)

/-- The offline per-category score of `evaluate_summative`
(`services/testing.py`, line 82): `max(40, min(95, 60 + len(blob) // 100))`. -/
def baseScore (transcript : List SimulationTurn) : Nat :=
  max 40 (min 95 (60 + (renderTranscript transcript).length / 100))

/-- Offline branch of `evaluate_summative` (`services/testing.py`,
lines 78–92).  `none` models an uncaught Python exception: with an empty
rubric, `scores` is empty and `int(sum(scores.values()) / len(scores))`
raises `ZeroDivisionError`.  The final `scores["gesamt"]` read is the
`dictLookup` match (its `none` arm is Python's `KeyError`, unreachable
here since the key was just set). -/
def evaluate_summative (transcript : List SimulationTurn) (rubric : List (String × Int))
    (persona : String) : Option SummativeEvaluation :=
  let base_score : Nat := baseScore transcript
  let scores₀ : List (String × Int) := rubric.map fun kv => (kv.1, (base_score : Int))
  if scores₀.length = 0 then
    none
  else
    let gesamt : Int := Int.tdiv ((scores₀.map Prod.snd).sum) (scores₀.length : Int)
    let scores := dictSet scores₀ "gesamt" gesamt
    match dictLookup scores "gesamt" with
    | none => none
    | some g =>
      some { persona := persona
             scores := scores
             highlights := ["Offline high-level feedback"]
             improvements := ["Verbesserungsvorschläge offline"]
             notes := "Offline evaluation (no OpenAI client)"
             passed := decide (60 ≤ g) }

/-- The decoded JSON payload of the live evaluator response
(`json.loads(response.output_text)` in `services/testing.py`,
lines 104–107): a dict whose four expected keys may each be absent. -/
structure LiveResponse where
  scores : Option (List (String × Int))
  highlights : Option (List String)
  improvements : Option (List String)
  notes : Option String
deriving DecidableEq, Repr

/-- Live branch of `evaluate_summative` after JSON decoding
(`services/testing.py`, lines 106–116): `result.get("scores", {})`,
`passed = scores.get("gesamt", 0) >= 60`, and the remaining fields read
with their Python `.get` defaults. -/
def evaluate_summative_live (result : LiveResponse) (persona : String) : SummativeEvaluation :=
  let scores := result.scores.getD []
  { persona := persona
    scores := scores
    highlights := result.highlights.getD []
    improvements := result.improvements.getD []
    notes := result.notes.getD ""
    passed := decide (60 ≤ dictGetD scores "gesamt" 0) }

/-- `batch_runner` (`services/testing.py`, lines 119–130) in offline mode:
for each `(persona, prompt)` pair in iteration order, simulate with
`params = {"persona": persona}` (so temperature defaults to `0.2`) and
evaluate; any exception aborts the whole batch (`none`). -/
def batch_runner (main_prompt : String) (persona_prompts : List (String × String))
    (rubric : List (String × Int)) (turns : Nat) : Option (List SummativeEvaluation) :=
  match persona_prompts with
  | [] => some []
  | (persona, prompt) :: rest =>
    let simulation := run_simulation llm_chat_offline main_prompt prompt turns persona (1/5)
    match evaluate_summative simulation.transcript rubric persona with
    | none => none
    | some evaluation =>
      match batch_runner main_prompt rest rubric turns with
      | none => none
      | some results => some (evaluation :: results)

/-- Modelled from the claim wording of P1/§4.1 for comparison with the
source: *plain* concatenation (no separator) of the user-role message
contents, truncated to 200 characters, prefixed with the marker.  The
source (`" ".join(...)`) differs: it inserts a single space between
contents. -/
def offlineBackendPlainConcat (messages : List Msg) : String :=
  "[offline-response] " ++
    (String.join ((messages.filter fun m => m.role == "user").map Msg.content)).take 200

/-- Tail of a space-separated join: `" " ++ b` for every further element. -/
def joinSpaceTail : List String → String
  | [] => ""
  | b :: bs => " " ++ b ++ joinSpaceTail bs

/-- Space-separated join, written recursively (the semantics of Python's
`" ".join`): the first element verbatim, a single space before every
further element.  Differs from plain concatenation exactly when two or
more elements are joined. -/
def joinWithSpace : List String → String
  | [] => ""
  | s :: rest => s ++ joinSpaceTail rest

/-- Loop body of `run_simulation` over a fallible backend
(`Except ε String`): the Python loop with exceptions made explicit.  A
backend fault short-circuits the iteration exactly as an uncaught Python
exception unwinds the `for` loop.  Also threads the list of message
sequences handed to the backend so far (the call trace), which survives
the fault. -/
def simLoopE {ε : Type} (llm : List Msg → ℚ → Except ε String) (user_prompt : Msg)
    (temperature : ℚ) :
    Nat → List Msg → List (List Msg) →
      Except ε (List SimulationTurn × List Msg) × List (List Msg)
  | 0, history, trace => (Except.ok ([], history), trace)
  | Nat.succ n, history, trace =>
    let call₁ := history ++ [user_prompt, ⟨"user", "<simulate>"⟩]
    match llm call₁ temperature with
    | Except.error e => (Except.error e, trace ++ [call₁])
    | Except.ok learner_input =>
      let history₁ := history ++ [⟨"user", learner_input⟩]
      match llm history₁ temperature with
      | Except.error e => (Except.error e, trace ++ [call₁, history₁])
      | Except.ok interviewer_reply =>
        let history₂ := history₁ ++ [⟨"assistant", interviewer_reply⟩]
        match simLoopE llm user_prompt temperature n history₂ (trace ++ [call₁, history₁]) with
        | (Except.error e, t) => (Except.error e, t)
        | (Except.ok (rest, h), t) =>
          (Except.ok (⟨"learner", learner_input⟩ :: ⟨"assistant", interviewer_reply⟩ :: rest, h), t)

/-- `run_simulation` over a fallible backend, with the call trace: first
component is the result (`.error` = the uncaught exception seen by the
caller), second the message sequences handed to the backend, in call
order. -/
def run_simulationE {ε : Type} (llm : List Msg → ℚ → Except ε String)
    (main_prompt test_persona_prompt : String) (turns : Nat) (persona : String)
    (temperature : ℚ) : Except ε SimulationResult × List (List Msg) :=
  let user_prompt : Msg := ⟨"system", test_persona_prompt⟩
  let history : List Msg := [⟨"system", main_prompt⟩, ⟨"assistant", "Hallo, willkommen."⟩]
  let r := simLoopE llm user_prompt temperature turns history []
  (match r.1 with
   | Except.error e => Except.error e
   | Except.ok p => Except.ok { persona := persona, transcript := p.1, metadata := ⟨persona, turns⟩ },
   r.2)

/-- A backend that fails every call with the fixed fault `"boom"` — a
fault that mentions no persona and no iteration index. -/
def llmBoom : List Msg → ℚ → Except String String := fun _ _ => Except.error "boom"

/-! ## Helper lemmas -/

lemma simLoop_shape (llm : List Msg → ℚ → String) (up : Msg) (temp : ℚ) :
    ∀ (n : Nat) (history : List Msg),
      (simLoop llm up temp n history).1.map SimulationTurn.role = rolePairs n ∧
      (simLoop llm up temp n history).1.length = 2 * n ∧
      (simLoop llm up temp n history).2.2.length = 2 * n := by
  intro n
  induction n with
  | zero => intro history; simp [simLoop, rolePairs]
  | succ n ih =>
    intro history
    simp [simLoop, rolePairs, Nat.mul_succ, ih]

lemma intercalate_go_eq (as : List String) :
    ∀ acc : String, String.intercalate.go acc " " as = acc ++ joinSpaceTail as := by
  induction as with
  | nil => intro acc; simp [String.intercalate.go, joinSpaceTail]
  | cons b bs ih =>
    intro acc
    rw [String.intercalate.go, ih, joinSpaceTail]
    simp [String.append_assoc]

lemma intercalate_eq_joinWithSpace (l : List String) :
    String.intercalate " " l = joinWithSpace l := by
  cases l with
  | nil => rfl
  | cons a as => rw [String.intercalate, intercalate_go_eq, joinWithSpace]

lemma dictLookup_cons (kv : String × Int) (d : List (String × Int)) (k : String) :
    dictLookup (kv :: d) k = if kv.1 == k then some kv.2 else dictLookup d k := by
  cases h : (kv.1 == k) <;> simp [dictLookup, List.find?_cons, h]

lemma dictLookup_map_const_mem (rubric : List (String × Int)) (c : Int) (k : String)
    (h : k ∈ rubric.map Prod.fst) :
    dictLookup (rubric.map fun kv => (kv.1, c)) k = some c := by
  induction rubric with
  | nil => simp at h
  | cons hd tl ih =>
    simp only [List.map_cons, List.mem_cons] at h
    rw [List.map_cons, dictLookup_cons]
    by_cases hk : hd.1 = k
    · simp [hk]
    · have hb : (hd.1 == k) = false := by simp [hk]
      simp only [hb, if_false]
      exact ih (h.resolve_left fun hh => hk hh.symm)

lemma dictLookup_dictSet_self (d : List (String × Int)) (k : String) (v : Int) :
    dictLookup (dictSet d k v) k = some v := by
  induction d with
  | nil => simp [dictSet, dictLookup]
  | cons hd tl ih =>
    by_cases hcase : hd.1 = k
    · simp [dictSet, List.any_cons, dictLookup_cons, hcase]
    · have ihs := ih
      cases ha : tl.any (fun kv => kv.1 == k) with
      | false =>
        simp only [dictSet, ha, Bool.false_eq_true, if_false] at ihs
        simp [dictSet, List.any_cons, hcase, ha, dictLookup_cons] at ihs ⊢
        exact ihs
      | true =>
        simp only [dictSet, ha, if_true] at ihs
        simp [dictSet, List.any_cons, hcase, ha, dictLookup_cons] at ihs ⊢
        exact ihs

lemma dictLookup_append_single_ne (d : List (String × Int)) (k k' : String) (v : Int)
    (h : k' ≠ k) : dictLookup (d ++ [(k, v)]) k' = dictLookup d k' := by
  induction d with
  | nil =>
    have hb : (k == k') = false := by simp [Ne.symm h]
    simp [dictLookup, List.find?_cons, hb]
  | cons hd tl ih =>
    rw [List.cons_append, dictLookup_cons, dictLookup_cons, ih]

lemma dictLookup_map_set_ne (d : List (String × Int)) (k k' : String) (v : Int)
    (h : k' ≠ k) :
    dictLookup (d.map fun kv => if kv.1 == k then (kv.1, v) else kv) k' = dictLookup d k' := by
  induction d with
  | nil => rfl
  | cons hd tl ih =>
    simp only [beq_iff_eq] at ih
    by_cases hk : hd.1 = k
    · have hk' : ¬ hd.1 = k' := by rw [hk]; exact fun hh => h hh.symm
      simp [List.map_cons, dictLookup_cons, hk, hk', Ne.symm h, ih]
    · by_cases h1 : hd.1 = k'
      · simp [List.map_cons, dictLookup_cons, hk, h1, h]
      · simp [List.map_cons, dictLookup_cons, hk, h1, ih]

lemma dictLookup_dictSet_ne (d : List (String × Int)) (k k' : String) (v : Int)
    (h : k' ≠ k) : dictLookup (dictSet d k v) k' = dictLookup d k' := by
  unfold dictSet
  split
  · exact dictLookup_map_set_ne d k k' v h
  · exact dictLookup_append_single_ne d k k' v h

lemma sum_map_const (l : List (String × Int)) (c : Int) :
    ((l.map fun kv => (kv.1, c)).map Prod.snd).sum = (l.length : Int) * c := by
  induction l with
  | nil => simp
  | cons hd tl ih =>
    simp only [List.map_cons, List.sum_cons, List.length_cons, ih]
    push_cast
    ring

lemma sixty_le_baseScore (t : List SimulationTurn) : 60 ≤ baseScore t := by
  unfold baseScore
  exact le_trans (le_min (by norm_num) (Nat.le_add_right _ _)) (le_max_right _ _)

lemma baseScore_le_95 (t : List SimulationTurn) : baseScore t ≤ 95 := by
  unfold baseScore
  exact max_le (by norm_num) (min_le_left _ _)

lemma evaluate_summative_eq (t : List SimulationTurn) (rubric : List (String × Int))
    (persona : String) (h : rubric ≠ []) :
    evaluate_summative t rubric persona =
      some { persona := persona
             scores := dictSet (rubric.map fun kv => (kv.1, (baseScore t : Int))) "gesamt"
               (baseScore t : Int)
             highlights := ["Offline high-level feedback"]
             improvements := ["Verbesserungsvorschläge offline"]
             notes := "Offline evaluation (no OpenAI client)"
             passed := true } := by
  have hn0 : rubric.length ≠ 0 := fun hh => h (List.length_eq_zero.mp hh)
  have hne : ¬ ((rubric.map fun kv => (kv.1, (baseScore t : Int))).length = 0) := by
    simpa [List.length_eq_zero] using h
  have hn : ((rubric.length : Nat) : Int) ≠ 0 := Int.natCast_ne_zero.mpr hn0
  have hG : Int.tdiv (((rubric.map fun kv => (kv.1, (baseScore t : Int))).map Prod.snd).sum)
      (((rubric.map fun kv => (kv.1, (baseScore t : Int))).length : Nat) : Int) =
      (baseScore t : Int) := by
    rw [sum_map_const, List.length_map]
    exact Int.mul_tdiv_cancel_left _ hn
  simp only [evaluate_summative]
  rw [if_neg hne, hG, dictLookup_dictSet_self]
  have hpass : (60 : Int) ≤ (baseScore t : Int) := by exact_mod_cast sixty_le_baseScore t
  simp [hpass]


lemma sum_map_const_fn (l : List (String × Int)) (c : Int) :
    (l.map fun _ => c).sum = (l.length : Int) * c := by
  induction l with
  | nil => simp
  | cons hd tl ih =>
    simp only [List.map_cons, List.sum_cons, List.length_cons, ih]
    push_cast
    ring

lemma scores_lookup_mem (t : List SimulationTurn) (rubric : List (String × Int)) (k : String)
    (h : k ∈ rubric.map Prod.fst) :
    dictLookup (dictSet (rubric.map fun kv => (kv.1, (baseScore t : Int))) "gesamt"
      (baseScore t : Int)) k = some (baseScore t : Int) := by
  by_cases hg : k = "gesamt"
  · subst hg
    exact dictLookup_dictSet_self _ _ _
  · rw [dictLookup_dictSet_ne _ _ _ _ hg]
    exact dictLookup_map_const_mem rubric _ k h

/-- Claim C1: for every `turns ≥ 0` (any `Nat`), `run_simulation` returns a
`SimulationResult` whose transcript has exactly `2 * turns` turns whose roles
are exactly the strictly alternating learner/assistant pairs (so the two seed
turns — system `main_prompt` and the fixed greeting — are not in it), the
backend is called exactly `2 * turns` times, and `turns = 0` yields an empty
transcript with no backend calls.  Stated for an arbitrary backend `llm`. -/
theorem run_simulation_transcript_pairs (llm : List Msg → ℚ → String)
    (main_prompt test_persona_prompt : String) (turns : Nat) (persona : String)
    (temperature : ℚ) :
    (run_simulation llm main_prompt test_persona_prompt turns persona temperature).transcript.map
        SimulationTurn.role = rolePairs turns ∧
    (run_simulation llm main_prompt test_persona_prompt turns persona temperature).transcript.length
        = 2 * turns ∧
    (run_simulation_calls llm main_prompt test_persona_prompt turns persona temperature).length
        = 2 * turns ∧
    (turns = 0 →
      (run_simulation llm main_prompt test_persona_prompt turns persona temperature).transcript
          = [] ∧
      run_simulation_calls llm main_prompt test_persona_prompt turns persona temperature = []) := by
  obtain ⟨h1, h2, h3⟩ := simLoop_shape llm ⟨"system", test_persona_prompt⟩ temperature turns
    [⟨"system", main_prompt⟩, ⟨"assistant", "Hallo, willkommen."⟩]
  refine ⟨h1, h2, h3, ?_⟩
  rintro rfl
  exact ⟨rfl, rfl⟩

/-- Witness for C1 at the concrete boundary input `turns = 0` with the
offline backend. -/
theorem run_simulation_transcript_pairs_witness :
    (run_simulation llm_chat_offline "m" "p" 0 "x" 0).transcript = [] ∧
    run_simulation_calls llm_chat_offline "m" "p" 0 "x" 0 = [] :=
  (run_simulation_transcript_pairs llm_chat_offline "m" "p" 0 "x" 0).2.2.2 rfl

set_option maxRecDepth 4000 in
/-- Claim C5, counterexample: the offline backend is NOT the plain
(separator-free) concatenation of the user-role message contents — with two
user messages `"a"`, `"b"` the code produces `"[offline-response] a b"`
(space-joined), not `"[offline-response] ab"`. -/
theorem llm_chat_offline_not_plain_concat :
    llm_chat_offline [⟨"user", "a"⟩, ⟨"user", "b"⟩] 0 ≠
      offlineBackendPlainConcat [⟨"user", "a"⟩, ⟨"user", "b"⟩] := by decide

/-- Claim C5, amended: the offline Response Backend is a pure function of
the input messages computing exactly the SPACE-SEPARATED concatenation
(single-space join) of the contents of the messages whose role is `"user"`,
truncated to the first 200 characters, prefixed with the fixed marker
`"[offline-response] "`. -/
theorem llm_chat_offline_space_join (messages : List Msg) (temperature : ℚ) :
    llm_chat_offline messages temperature =
      "[offline-response] " ++
        (joinWithSpace ((messages.filter fun m => m.role == "user").map Msg.content)).take 200 := by
  unfold llm_chat_offline
  rw [intercalate_eq_joinWithSpace]

/-- Claim C6: two calls of the offline Response Backend on identical input
messages return byte-identical texts, for any two temperatures (the offline
path never reads the temperature). -/
theorem llm_chat_offline_deterministic (messages : List Msg) (t₁ t₂ : ℚ) :
    llm_chat_offline messages t₁ = llm_chat_offline messages t₂ := rfl

/-- Claim C2: in offline mode with a non-empty rubric,
`base_score = clamp(60 + L / 100, 40, 95)` for `L` the length of the
transcript rendered one `"{role}: {content}"` line per turn; every rubric
category receives `base_score`; the synthetic overall key (`"gesamt"`)
receives the truncating integer average of the per-category scores; a
3500-character blob yields 95 everywhere; the empty transcript yields
overall 60 and `passed = true`. -/
theorem evaluate_summative_offline_scoring (transcript : List SimulationTurn)
    (rubric : List (String × Int)) (persona : String) (h : rubric ≠ []) :
    ∃ e, evaluate_summative transcript rubric persona = some e ∧
      baseScore transcript = max 40 (min 95 (60 + (renderTranscript transcript).length / 100)) ∧
      (∀ k ∈ rubric.map Prod.fst, dictLookup e.scores k = some (baseScore transcript : Int)) ∧
      dictLookup e.scores "gesamt" =
        some (Int.tdiv ((rubric.map fun _ => (baseScore transcript : Int)).sum)
          ((rubric.length : Nat) : Int)) ∧
      ((renderTranscript transcript).length = 3500 →
        ∀ k ∈ "gesamt" :: rubric.map Prod.fst, dictLookup e.scores k = some 95) ∧
      (transcript = [] → dictLookup e.scores "gesamt" = some 60 ∧ e.passed = true) := by
  have hn0 : rubric.length ≠ 0 := fun hh => h (List.length_eq_zero.mp hh)
  have hn : ((rubric.length : Nat) : Int) ≠ 0 := Int.natCast_ne_zero.mpr hn0
  have hGes : Int.tdiv ((rubric.map fun _ => (baseScore transcript : Int)).sum)
      ((rubric.length : Nat) : Int) = (baseScore transcript : Int) := by
    rw [sum_map_const_fn]
    exact Int.mul_tdiv_cancel_left _ hn
  refine ⟨_, evaluate_summative_eq transcript rubric persona h, rfl, ?_, ?_, ?_, ?_⟩
  · intro k hk
    exact scores_lookup_mem transcript rubric k hk
  · rw [hGes]
    exact dictLookup_dictSet_self _ _ _
  · intro hL k hk
    have hB : baseScore transcript = 95 := by simp [baseScore, hL]
    rcases List.mem_cons.mp hk with hk | hk
    · subst hk
      rw [dictLookup_dictSet_self, hB]
      norm_num
    · rw [scores_lookup_mem transcript rubric k hk, hB]
      norm_num
  · rintro rfl
    have hB : baseScore ([] : List SimulationTurn) = 60 := rfl
    constructor
    · rw [dictLookup_dictSet_self, hB]
      norm_num
    · rfl

/-- Witness for C2 at the empty transcript and the one-category rubric
`{"a": 1}`. -/
theorem evaluate_summative_offline_scoring_witness :
    ∃ e, evaluate_summative [] [("a", 1)] "p" = some e ∧
      baseScore [] = max 40 (min 95 (60 + (renderTranscript []).length / 100)) ∧
      (∀ k ∈ ([("a", 1)] : List (String × Int)).map Prod.fst,
        dictLookup e.scores k = some (baseScore [] : Int)) ∧
      dictLookup e.scores "gesamt" =
        some (Int.tdiv ((([("a", 1)] : List (String × Int)).map fun _ => (baseScore [] : Int)).sum)
          ((([("a", 1)] : List (String × Int)).length : Nat) : Int)) ∧
      ((renderTranscript []).length = 3500 →
        ∀ k ∈ "gesamt" :: ([("a", 1)] : List (String × Int)).map Prod.fst,
          dictLookup e.scores k = some 95) ∧
      (([] : List SimulationTurn) = [] → dictLookup e.scores "gesamt" = some 60 ∧ e.passed = true) :=
  evaluate_summative_offline_scoring [] [("a", 1)] "p" (List.cons_ne_nil _ _)

/-- Claim C3: every Evaluation the evaluator produces carries
`passed = (scores.get("gesamt", 0) ≥ 60)`; on the offline path the
`"gesamt"` key is always present, and on the live path a missing key
defaults to 0 rather than failing (the live function is total in the
decoded response). -/
theorem evaluation_passed_invariant :
    (∀ (t : List SimulationTurn) (rubric : List (String × Int)) (persona : String)
        (e : SummativeEvaluation),
        evaluate_summative t rubric persona = some e →
          (dictLookup e.scores "gesamt").isSome = true ∧
          e.passed = decide (60 ≤ dictGetD e.scores "gesamt" 0)) ∧
    (∀ (result : LiveResponse) (persona : String),
        (evaluate_summative_live result persona).passed =
          decide (60 ≤ dictGetD (evaluate_summative_live result persona).scores "gesamt" 0)) := by
  constructor
  · intro t rubric persona e he
    have hrne : rubric ≠ [] := by
      intro hr
      subst hr
      simp [evaluate_summative] at he
    rw [evaluate_summative_eq t rubric persona hrne] at he
    have hE := Option.some.inj he
    subst hE
    have h60 : (60 : Int) ≤ (baseScore t : Int) := by exact_mod_cast sixty_le_baseScore t
    constructor
    · rw [dictLookup_dictSet_self]
      rfl
    · simp [dictGetD, dictLookup_dictSet_self, h60]
  · intro result persona
    rfl

/-- Witness for C3 on the offline path at the empty transcript with rubric
`{"a": 1}` (whose Evaluation has scores `{"a": 60, "gesamt": 60}` and
`passed = true`). -/
theorem evaluation_passed_invariant_witness :
    (dictLookup [("a", 60), ("gesamt", 60)] "gesamt").isSome = true ∧
    true = decide (60 ≤ dictGetD [("a", 60), ("gesamt", 60)] "gesamt" 0) := by
  have h := evaluation_passed_invariant.1 [] [("a", 1)] "p"
    ⟨"p", [("a", 60), ("gesamt", 60)], ["Offline high-level feedback"],
     ["Verbesserungsvorschläge offline"], "Offline evaluation (no OpenAI client)", true⟩ rfl
  exact h

/-- Claim C4, counterexample: with an empty rubric the offline
`evaluate_summative` faults (`ZeroDivisionError` from
`int(sum(scores.values()) / len(scores))` with `len(scores) = 0`) instead of
degrading to a default category. -/
theorem evaluate_summative_empty_rubric_cex :
    evaluate_summative [] [] "weak" = none := rfl

/-- Claim C4, amended: offline `evaluate_summative` does NOT tolerate an
empty rubric — for every transcript and persona it faults
(`ZeroDivisionError`), returning no Evaluation at all. -/
theorem evaluate_summative_empty_rubric_faults (t : List SimulationTurn) (persona : String) :
    evaluate_summative t [] persona = none := rfl

/-- Claim C9, counterexample: the offline evaluator is not total in the
rubric — with an empty rubric it faults even on a one-turn transcript. -/
theorem evaluate_summative_fault_on_empty_rubric_cex :
    evaluate_summative [⟨"learner", "hi"⟩] [] "weak" = none := rfl

/-- Claim C9, amended: offline `evaluate_summative` never faults for any
transcript (including the empty one) and any NON-EMPTY rubric, and performs
no network I/O (it is a pure function in this embedding). -/
theorem evaluate_summative_offline_total (t : List SimulationTurn)
    (rubric : List (String × Int)) (persona : String) (h : rubric ≠ []) :
    ∃ e, evaluate_summative t rubric persona = some e :=
  ⟨_, evaluate_summative_eq t rubric persona h⟩

/-- Witness for C9 at a concrete one-turn transcript and one-category
rubric. -/
theorem evaluate_summative_offline_total_witness :
    ∃ e, evaluate_summative [⟨"learner", "hi"⟩] [("b", 2)] "w" = some e :=
  evaluate_summative_offline_total [⟨"learner", "hi"⟩] [("b", 2)] "w" (List.cons_ne_nil _ _)

/-- Claim C10: in offline mode, for every transcript and non-empty rubric
the overall (`"gesamt"`) score lies in `[60, 95]` and `passed` is always
`true` — the offline evaluator can never fail a persona. -/
theorem evaluate_summative_always_passes (t : List SimulationTurn)
    (rubric : List (String × Int)) (persona : String) (h : rubric ≠ []) :
    ∃ e, evaluate_summative t rubric persona = some e ∧
      (∃ g : Int, dictLookup e.scores "gesamt" = some g ∧ 60 ≤ g ∧ g ≤ 95) ∧
      e.passed = true := by
  refine ⟨_, evaluate_summative_eq t rubric persona h,
    ⟨(baseScore t : Int), dictLookup_dictSet_self _ _ _, ?_, ?_⟩, rfl⟩
  · exact_mod_cast sixty_le_baseScore t
  · exact_mod_cast baseScore_le_95 t

/-- Witness for C10 at the empty transcript and rubric `{"c": 3}`. -/
theorem evaluate_summative_always_passes_witness :
    ∃ e, evaluate_summative [] [("c", 3)] "x" = some e ∧
      (∃ g : Int, dictLookup e.scores "gesamt" = some g ∧ 60 ≤ g ∧ g ≤ 95) ∧
      e.passed = true :=
  evaluate_summative_always_passes [] [("c", 3)] "x" (List.cons_ne_nil _ _)

/-- Claim C7: with a non-empty rubric (so that no evaluation faults),
`batch_runner` returns exactly one Evaluation per persona, in the iteration
order of the input persona mapping: the i-th result is exactly the
evaluation of the i-th persona's own independent simulation, and carries
that persona's identifier. -/
theorem batch_runner_order (main_prompt : String) (persona_prompts : List (String × String))
    (rubric : List (String × Int)) (turns : Nat) (h : rubric ≠ []) :
    ∃ results, batch_runner main_prompt persona_prompts rubric turns = some results ∧
      results.length = persona_prompts.length ∧
      (∀ i pp, persona_prompts.get? i = some pp →
        results.get? i =
          evaluate_summative
            (run_simulation llm_chat_offline main_prompt pp.2 turns pp.1 (1/5)).transcript
            rubric pp.1) ∧
      (∀ i pp, persona_prompts.get? i = some pp →
        ∃ e, results.get? i = some e ∧ e.persona = pp.1) := by
  induction persona_prompts with
  | nil =>
    refine ⟨[], rfl, rfl, ?_, ?_⟩ <;> intro i pp hpp <;> simp at hpp
  | cons hd tl ih =>
    obtain ⟨p, q⟩ := hd
    obtain ⟨res, hres, hlen, hget, hper⟩ := ih
    obtain ⟨E, hev, hEper⟩ :
        ∃ E, evaluate_summative
            (run_simulation llm_chat_offline main_prompt q turns p (1/5)).transcript rubric p =
              some E ∧ E.persona = p := by
      rw [evaluate_summative_eq _ _ _ h]
      exact ⟨_, rfl, rfl⟩
    refine ⟨E :: res, ?_, ?_, ?_, ?_⟩
    · simp only [batch_runner]
      rw [hev, hres]
    · simp [hlen]
    · intro i pp hpp
      cases i with
      | zero =>
        simp only [List.get?_cons_zero] at hpp
        obtain rfl := Option.some.inj hpp
        rw [List.get?_cons_zero]
        exact hev.symm
      | succ n =>
        rw [List.get?_cons_succ] at hpp
        rw [List.get?_cons_succ]
        exact hget n pp hpp
    · intro i pp hpp
      cases i with
      | zero =>
        simp only [List.get?_cons_zero] at hpp
        obtain rfl := Option.some.inj hpp
        exact ⟨E, List.get?_cons_zero, hEper⟩
      | succ n =>
        rw [List.get?_cons_succ] at hpp
        rw [List.get?_cons_succ]
        exact hper n pp hpp

/-- Witness for C7 at the two-persona batch of spec Scenario C. -/
theorem batch_runner_order_witness :
    ∃ results,
      batch_runner "sys" [("best_case", "p1"), ("weak", "p2")] [("a", 20)] 1 = some results ∧
      results.length = ([("best_case", "p1"), ("weak", "p2")] : List (String × String)).length ∧
      (∀ i pp, ([("best_case", "p1"), ("weak", "p2")] : List (String × String)).get? i = some pp →
        results.get? i =
          evaluate_summative
            (run_simulation llm_chat_offline "sys" pp.2 1 pp.1 (1/5)).transcript
            [("a", 20)] pp.1) ∧
      (∀ i pp, ([("best_case", "p1"), ("weak", "p2")] : List (String × String)).get? i = some pp →
        ∃ e, results.get? i = some e ∧ e.persona = pp.1) :=
  batch_runner_order "sys" [("best_case", "p1"), ("weak", "p2")] [("a", 20)] 1
    (List.cons_ne_nil _ _)

lemma simLoopE_error_origin {ε : Type} (llm : List Msg → ℚ → Except ε String) (up : Msg)
    (temp : ℚ) :
    ∀ (n : Nat) (history : List Msg) (trace : List (List Msg)) (e : ε),
      (simLoopE llm up temp n history trace).1 = Except.error e →
      ∃ msgs, llm msgs temp = Except.error e := by
  intro n
  induction n with
  | zero =>
    intro history trace e hr
    simp [simLoopE] at hr
  | succ n ih =>
    intro history trace e hr
    simp only [simLoopE] at hr
    split at hr
    · rename_i e₁ heq
      simp only [Prod.fst] at hr
      obtain rfl := Except.error.inj hr
      exact ⟨_, heq⟩
    · rename_i s₁ heq₁
      split at hr
      · rename_i e₂ heq₂
        simp only [Prod.fst] at hr
        obtain rfl := Except.error.inj hr
        exact ⟨_, heq₂⟩
      · rename_i s₂ heq₂
        split at hr
        · rename_i e₃ t₃ heq₃
          simp only [Prod.fst] at hr
          obtain rfl := Except.error.inj hr
          exact ih _ _ _ (by rw [heq₃])
        · rename_i rest h₃ t₃ heq₃
          simp at hr

/-- Claim C8, amended: if a Response Backend call fails during
`run_simulation`, the simulation aborts and the backend's fault propagates
to the caller UNCHANGED — it is some backend call's own error, not tagged
with the persona identifier or iteration index; and when the very first
backend call fails, exactly that one call was issued (no retry). -/
theorem run_simulationE_fault_propagation {ε : Type} (llm : List Msg → ℚ → Except ε String)
    (main_prompt test_persona_prompt : String) (turns : Nat) (persona : String)
    (temperature : ℚ) :
    (∀ e : ε,
      (run_simulationE llm main_prompt test_persona_prompt turns persona temperature).1 =
          Except.error e →
        ∃ msgs, llm msgs temperature = Except.error e) ∧
    (∀ e : ε, 1 ≤ turns →
      llm [⟨"system", main_prompt⟩, ⟨"assistant", "Hallo, willkommen."⟩,
        ⟨"system", test_persona_prompt⟩, ⟨"user", "<simulate>"⟩] temperature = Except.error e →
      run_simulationE llm main_prompt test_persona_prompt turns persona temperature =
        (Except.error e,
          [[⟨"system", main_prompt⟩, ⟨"assistant", "Hallo, willkommen."⟩,
            ⟨"system", test_persona_prompt⟩, ⟨"user", "<simulate>"⟩]])) := by
  constructor
  · intro e hr
    simp only [run_simulationE] at hr
    split at hr
    · rename_i e' heq
      obtain rfl := Except.error.inj hr
      exact simLoopE_error_origin llm _ temperature turns _ [] _ heq
    · exact absurd hr (by simp)
  · intro e hturns hfail
    obtain ⟨n, rfl⟩ : ∃ n, turns = n + 1 := ⟨turns - 1, by omega⟩
    simp only [run_simulationE, simLoopE, List.cons_append, List.nil_append] at hfail ⊢
    rw [hfail]

/-- Claim C8, counterexample: a backend that fails with the bare fault
`"boom"` makes `run_simulation` propagate exactly `Except.error "boom"` for
two different personas `"p7"` and `"p8"` — the propagated fault contains
neither the persona identifier nor the iteration index (neither `"p7"`,
`"p8"`, `"0"` nor `"1"` occurs in it), so it is not tagged as the claim
asserts. -/
theorem run_simulationE_untagged_fault_cex :
    (run_simulationE llmBoom "m" "p" 1 "p7" 0).1 = Except.error "boom" ∧
    (run_simulationE llmBoom "m" "p" 1 "p8" 0).1 = Except.error "boom" ∧
    "p7" ≠ "p8" ∧
    ¬ ("p7".data <:+: "boom".data) ∧
    ¬ ("p8".data <:+: "boom".data) ∧
    ¬ ("0".data <:+: "boom".data) ∧
    ¬ ("1".data <:+: "boom".data) :=
  ⟨rfl, rfl, by decide, by decide, by decide, by decide, by decide⟩

/-- Witness for C8 with the always-failing backend `llmBoom` at
`turns = 1`. -/
theorem run_simulationE_fault_propagation_witness :
    (∃ msgs, llmBoom msgs 0 = Except.error "boom") ∧
    run_simulationE llmBoom "m" "p" 1 "w" 0 =
      (Except.error "boom",
        [[⟨"system", "m"⟩, ⟨"assistant", "Hallo, willkommen."⟩, ⟨"system", "p"⟩,
          ⟨"user", "<simulate>"⟩]]) :=
  ⟨(run_simulationE_fault_propagation llmBoom "m" "p" 1 "w" 0).1 "boom" rfl,
   (run_simulationE_fault_propagation llmBoom "m" "p" 1 "w" 0).2 "boom" (by decide) rfl⟩

end SzenarioTesting
